import Mathlib

/-
Verification of the mechanism-search core in `assembly.py`
(planar multi-body mechanisms: gears, links, joints; equilibrium solving;
design-space exploration with a curve-dissimilarity filter).

Numeric values are modelled by exact rationals.  The SciPy Powell
minimizer, the random jitter draws, and the per-step sampling streams are
external inputs to the code; they are modelled as explicit oracle
arguments (a function returning a success flag and a result vector for
the minimizer, a rational draw for `random.uniform`, an indexed stream
for repeated sampling).  Everything the repository itself computes is
translated directly from `assembly.py`.
-/

namespace MechAssembly

/-- Positions in 3-space, with rational coordinates (source: `Point`). -/
structure Point3 where
  x : ℚ
  y : ℚ
  z : ℚ
deriving DecidableEq

/-- Orientation triple (source: `Alignment`). -/
structure Alignment3 where
  a : ℚ
  b : ℚ
  c : ℚ
deriving DecidableEq

/-- Joint attachment coordinates (source: 3-entry `np.array`). -/
abbrev Vec3 := ℚ × ℚ × ℚ

/-- Traced curves are finite lists of 3-d marked-point positions. -/
abbrev Curve := List Vec3

/-! ## Dissimilarity filter (source: `ofir_score`, `is_dissimilar`) -/

/-- Constant placeholder curve-distance (source: `ofir_score`, which
returns `1.5` for every pair of curves). -/
def ofir_score (_curve1 _curve2 : Curve) : ℚ := 3 / 2

/-- Acceptance gate against the curve database (source: `is_dissimilar`):
walk the database, reject as soon as one stored curve scores below
`gamma`, accept after the loop. -/
def is_dissimilar (curve : Curve) : List Curve → ℚ → Bool
  | [], _ => true
  | dbCurve :: rest, gamma =>
      if ofir_score curve dbCurve < gamma then false
      else is_dissimilar curve rest gamma

/-! ## Assembly constraint aggregation (source: class `Assembly`)

Free parameters are opaque identifiers (source: the tuples naming one
scalar degree of freedom); connections are records of the list of free
parameters they depend on and a residual function from the values of
those parameters (in the connection's own order) to the list of residual
terms (source: `get_free_params` / `get_constraint` of the classes in the
missing `connections.py`; here kept fully abstract). -/

abbrev Param := ℕ

/-- Connection as the solver sees it: an ordered list of free parameters
and a residual-terms function over the values of exactly those
parameters. -/
structure Connection where
  params : List Param
  residual : List ℚ → List ℚ

/-- Dictionary-update step: a new key is appended, an existing key keeps
its place (Python `dict.update` insertion-order semantics). -/
def insertParam (seen : List Param) (p : Param) : List Param :=
  if p ∈ seen then seen else seen ++ [p]

/-- Ordered, deduplicated list of every free parameter of the assembly
(source: `Assembly.free_params_in_assembly`, a dict updated with each
connection's free parameters in connection order). -/
def free_params_in_assembly (cons : List Connection) : List Param :=
  cons.foldl (fun acc c => c.params.foldl insertParam acc) []

/-- Slot of a parameter in the flat state vector (source: `param_index`,
built by enumerating `free_params_in_assembly`). -/
def param_slot (cons : List Connection) (p : Param) : ℕ :=
  (free_params_in_assembly cons).indexOf p

/-- Values handed to one connection's residual: for each of its own free
parameters, the entry of the global vector at that parameter's slot
(source: the comprehension `param_list[param_index[p]] for p in
con.get_free_params()`). -/
def connectionArgs (cons : List Connection) (c : Connection) (x : List ℚ) : List ℚ :=
  c.params.map fun p => x.getD (param_slot cons p) 0

/-- Scalar objective of the whole assembly (source:
`Assembly.get_assembly_constraint.assembly_const`): concatenate every
connection's residual-term list into `result`, then `sum(result)`. -/
def assembly_const (cons : List Connection) (x : List ℚ) : ℚ :=
  (cons.foldl (fun result c => result ++ c.residual (connectionArgs cons c x)) []).sum

/-- Objective as the spec words it, for comparison: the raw sum, over all
connections, of the sum of that connection's residual terms. -/
def assembly_const_specSum (cons : List Connection) (x : List ℚ) : ℚ :=
  (cons.map fun c => (c.residual (connectionArgs cons c x)).sum).sum

/-! ## Solver state commit (source: `Assembly.update_state` and friends) -/

/-- Result handed back by the external minimizer (source: the SciPy
`minimize(..., method=Powell)` return object: its `success` flag and its
solution vector `x`). -/
structure MinimizeResult where
  success : Bool
  x : List ℚ

/-- Current state as a map from free parameter to value (source:
`Assembly.cur_state`, a dict over exactly the indexed parameters). -/
abbrev AState := Param → ℚ

/-- Flat seed vector read from the current state (source:
`Assembly.get_cur_state_array`). -/
def get_cur_state_array (cons : List Connection) (st : AState) : List ℚ :=
  (free_params_in_assembly cons).map st

/-- Write the minimizer's vector back through the parameter index
(source: `Assembly.update_cur_state_from_array`: every indexed parameter
is assigned its entry of the array). -/
def update_cur_state_from_array (index : List Param) (st : AState) (arr : List ℚ) : AState :=
  fun p => if p ∈ index then arr.getD (index.indexOf p) 0 else st p

/-- One solve (source: `Assembly.update_state`): seed the minimizer at
the current state vector; on `success` commit the minimizer's `x` and
report `true`, otherwise leave the state untouched and report `false`.
The minimizer itself is an oracle argument. -/
def update_state (cons : List Connection) (minimizer : List ℚ → MinimizeResult)
    (st : AState) : Bool × AState :=
  let res := minimizer (get_cur_state_array cons st)
  if res.success then
    (true, update_cur_state_from_array (free_params_in_assembly cons) st res.x)
  else
    (false, st)

/-- Construction-time solve (source: `Assembly.__init__`): one
`update_state` from the initial state; if it fails the constructor
raises (`assembly failed to init`), modelled as `none`. -/
def assembly_init (cons : List Connection) (minimizer : List ℚ → MinimizeResult)
    (st : AState) : Option AState :=
  let r := update_state cons minimizer st
  if r.1 then some r.2 else none

/-- Configured solver tolerance (source: the `tol=1e-4` default of
`Assembly.__init__`; stored but never consulted by `update_state`). -/
def default_tolerance : ℚ := 1 / 10000

/-! ## Rounding and perturbation (source: `round(..., 2)` and the
`sample_*_from_current` family) -/

/-- Round-half-to-even to the nearest integer (the rounding Python's
built-in `round` performs; floats modelled by exact rationals). -/
def roundHalfEven (q : ℚ) : ℤ :=
  let f := ⌊q⌋
  let r := q - (f : ℚ)
  if r < 1 / 2 then f
  else if 1 / 2 < r then f + 1
  else if f % 2 = 0 then f else f + 1

/-- Python `round(x, 2)`: round to the nearest hundredth, ties to even. -/
def round2 (x : ℚ) : ℚ := (roundHalfEven (100 * x) : ℚ) / 100

/-- Perturbed gear radius (source: `sample_radius_from_current`): add the
uniform jitter `u` (the random draw, an oracle argument whose admissible
range depends on the branch), clamp from below at `min_radius`, round to
two decimals.  Both branches of the source differ only in the range the
draw is taken from. -/
def sample_radius_from_current (radius u diff_val min_radius : ℚ) : ℚ :=
  if radius < 1 / 2 then
    round2 (max min_radius (radius + u))
  else
    round2 (max min_radius (radius + u))

/-- Perturbed link length (source: `sample_length_from_current`, textually
identical to the radius sampler with `min_length` for the floor). -/
def sample_length_from_current (length u diff_val min_length : ℚ) : ℚ :=
  if length < 1 / 2 then
    round2 (max min_length (length + u))
  else
    round2 (max min_length (length + u))

/-- Default jitter half-range of the samplers (source: `diff_val=2`). -/
def default_diff_val : ℚ := 2

/-- Default floor of the samplers (source: `min_radius=0.1` /
`min_length=0.1`). -/
def default_min_floor : ℚ := 1 / 10

/-! ## Declarative configuration and the concrete builder
(source: `AssemblyA`, `return_prototype`) -/

/-- Gear creation parameters (source: the `gear*_init_parameters` dicts). -/
structure GearParams where
  radius : ℚ
deriving DecidableEq

/-- Link creation parameters (source: the `stick*_init_parameters` dicts). -/
structure StickParams where
  length : ℚ
deriving DecidableEq

/-- Declarative configuration of an `AssemblyA` (source: the `config`
dict consumed by `AssemblyA._parse_config`). -/
structure AConfig where
  gear1_init_parameters : GearParams
  stick1_init_parameters : StickParams
  gear2_init_parameters : GearParams
  stick2_init_parameters : StickParams
  gear1_fixed_position : Point3
  gear2_fixed_position : Point3
  gear1_fixed_orientation : Alignment3
  gear2_fixed_orientation : Alignment3
  gear1_stick1_joint_location : Vec3
  stick1_gear1_joint_location : Vec3
  gear2_stick2_joint_location : Vec3
  stick2_gear2_joint_location : Vec3
  stick1_stick2_joint_location : Vec3
  stick2_stick1_joint_location : Vec3
deriving DecidableEq

/-- Identities of the parts of an `AssemblyA`.  In the source,
`self.components = [gear1, stick1, gear2, stick2]`, so list index 0 is
gear1, 1 is stick1, 2 is gear2, 3 is stick2; the actuator is separate. -/
inductive CompRef where
  | actuator
  | gear1
  | stick1
  | gear2
  | stick2
deriving DecidableEq

/-- Connections as created by the builder, recording exactly the
arguments passed to each constructor.  Modelled from the spec: the
constructor classes `PhaseConnection`, `FixedConnection`,
`PinConnection` live in the missing `connections.py` and, per the spec,
are immutable records of the constrained components and their local
attachment points / target pose. -/
inductive ConnSpec where
  | phaseC (compA compB : CompRef)
  | fixedC (comp : CompRef) (pos : Point3) (orient : Alignment3)
  | pinC (compA compB : CompRef) (locA locB : Vec3)
deriving DecidableEq

/-- Connection list built by the concrete builder (source:
`AssemblyA._parse_config`, translated verbatim: note that the source
passes `self.components[0]` — gear1 — to BOTH `FixedConnection`s, and
passes `config[stick1_stick2_joint_location]` as BOTH attachment
points of the stick1–stick2 `PinConnection`). -/
def parse_config_connections (config : AConfig) : List ConnSpec :=
  [ .phaseC .actuator .gear1,
    .phaseC .gear1 .gear2,
    .fixedC .gear1 config.gear1_fixed_position config.gear1_fixed_orientation,
    .fixedC .gear1 config.gear2_fixed_position config.gear2_fixed_orientation,
    .pinC .gear1 .stick1 config.gear1_stick1_joint_location config.stick1_gear1_joint_location,
    .pinC .gear2 .stick2 config.gear2_stick2_joint_location config.stick2_gear2_joint_location,
    .pinC .stick1 .stick2 config.stick1_stick2_joint_location
      config.stick1_stick2_joint_location ]

/-- Reference prototype configuration (source: `return_prototype`). -/
def prototype_config : AConfig :=
  { gear1_init_parameters := ⟨2⟩
    stick1_init_parameters := ⟨8⟩
    gear2_init_parameters := ⟨1⟩
    stick2_init_parameters := ⟨6⟩
    gear1_fixed_position := ⟨0, 0, 0⟩
    gear2_fixed_position := ⟨6, 0, 0⟩
    gear1_fixed_orientation := ⟨0, 0, 0⟩
    gear2_fixed_orientation := ⟨0, 0, 0⟩
    gear1_stick1_joint_location := (1, 1, 0)
    stick1_gear1_joint_location := (0, 0, 0)
    gear2_stick2_joint_location := (-(1 / 2), -(1 / 2), 0)
    stick2_gear2_joint_location := (0, 0, 0)
    stick1_stick2_joint_location := (4, 0, 0)
    stick2_stick1_joint_location := (6, 0, 0) }

/-! ## Feasibility validator (source: `points_distance`,
`is_vaild_assembleA`) -/

/-- Nearest-hundredth rounding of the square root: for `d ≥ 0`,
`sqrtRound2 d` is `round(sqrt(d), 2)` computed over exact rationals
(round-half-even on the exact real root; the source computes
`round(dis ** 0.5, 2)` in double precision, which agrees on every value
arising in the claims, where the roots are exact).  Writing `d = p / q`,
the exact value `100 * sqrt(d)` is `sqrt(10000 p q) / q`, whose floor is
`Nat.sqrt (10000 p q) / q`; the half-way comparison `4 M` against
`(2 k + 1)^2 q^2` decides the rounding direction. -/
def sqrtRound2 (d : ℚ) : ℚ :=
  let p : ℕ := d.num.toNat
  let q : ℕ := d.den
  let M : ℕ := 10000 * p * q
  let k : ℕ := Nat.sqrt M / q
  let tie : ℕ := (2 * k + 1) ^ 2 * q ^ 2
  let n : ℕ :=
    if 4 * M > tie then k + 1
    else if 4 * M < tie then k
    else if k % 2 = 0 then k else k + 1
  (n : ℚ) / 100

/-- Euclidean distance of two points, rounded to two decimals (source:
`points_distance`: sum of squared coordinate differences, then
`round(dis ** 0.5, 2)`). -/
def points_distance (point1 point2 : Point3) : ℚ :=
  sqrtRound2 ((point1.x - point2.x) ^ 2 + (point1.y - point2.y) ^ 2
    + (point1.z - point2.z) ^ 2)

/-- Feasibility validator (source: `is_vaild_assembleA`, which reads only
`assemblyA.config`; modelled as the pure function of the configuration).
The guard order and short-circuiting follow the source: the two
link-length-vs-offset checks, the two joint-inside-gear checks (with the
centers hard-coded to the origin as in the source), then
`sticks too short` and `sticks too long`. -/
def is_vaild_assembleA (config : AConfig) : Bool :=
  if config.stick1_init_parameters.length < config.stick1_stick2_joint_location.1 then
    false
  else if config.stick2_init_parameters.length < config.stick2_stick1_joint_location.1 then
    false
  else if (config.gear1_stick1_joint_location.1 - 0) ^ 2
      + (config.gear1_stick1_joint_location.2.1 - 0) ^ 2
      > config.gear1_init_parameters.radius ^ 2 then
    false
  else if (config.gear2_stick2_joint_location.1 - 0) ^ 2
      + (config.gear2_stick2_joint_location.2.1 - 0) ^ 2
      > config.gear2_init_parameters.radius ^ 2 then
    false
  else
    let gears_dis := points_distance config.gear1_fixed_position config.gear2_fixed_position
    let radius1 := config.gear1_init_parameters.radius
    let radius2 := config.gear2_init_parameters.radius
    let stick2_len := config.stick2_init_parameters.length
    let stick1_part_len := config.stick1_stick2_joint_location.1
    if gears_dis + radius1 + radius2 ≥ stick2_len + stick1_part_len then
      false
    else if gears_dis - radius1 + stick1_part_len < stick2_len then
      false
    else
      true

/-! ## Curve tracer (source: `get_assembly_curve`) -/

/-- Trace-time view of a mechanism: its connection list together with the
marked-point reading.  Modelled from the spec: `get_red_point_position`
maps the current component poses (here, the solver state) to the marked
point's global position; the pose arithmetic lives in the missing
`parts.py`, so the reading is kept abstract as a function of the state. -/
structure TraceModel where
  cons : List Connection
  red_point : AState → Vec3

/-- Curve tracer loop (source: `get_assembly_curve`): at each of the `n`
steps the actuator is advanced by `360 / n` degrees and the assembly is
re-solved; the updated actuator phase enters the constraint residuals,
so the minimizer oracle is indexed by the step counter `i`.  As in the
source, the boolean returned by `update_state` is not inspected: the
marked point of the resulting state is appended unconditionally and the
loop continues. -/
def get_assembly_curve (M : TraceModel) (minimizers : ℕ → List ℚ → MinimizeResult) :
    ℕ → ℕ → AState → Curve
  | 0, _, _ => []
  | n + 1, i, st =>
      let r := update_state M.cons (minimizers i) st
      M.red_point r.2 :: get_assembly_curve M minimizers n (i + 1) r.2

/-! ## Explorer retry loops (source: `create_assemblyA`,
`AssemblyA_Sampler.get_origin_assembly`) -/

/-- Outcome of running a source `while` loop for a finite number of
iterations: either the loop exited with a value, or it is still running.
The source defines no exhaustion outcome of any kind — there is no
`SearchExhausted` (or any other) error path to represent. -/
inductive LoopOutcome (α : Type) where
  | found (a : α)
  | running
deriving DecidableEq

/-- Whether a loop outcome is an exit with a value. -/
def LoopOutcome.isFound {α : Type} : LoopOutcome α → Bool
  | .found _ => true
  | .running => false

/-- Origin re-sampling loop of `create_assemblyA`, run for `fuel`
iterations (source: `while not is_vaild_assembleA(new_assembly):` with a
fresh random sample each iteration; the random sampling around the
prototype is modelled as the oracle stream `samples`, whose `i`-th entry
is the configuration produced by the `i`-th call to
`sample_from_cur_assemblyA`).  The source loop carries no attempt
counter and no bound; `fuel` is only the observation window. -/
def create_assemblyA_loop (samples : ℕ → AConfig) : ℕ → ℕ → LoopOutcome AConfig
  | 0, _ => .running
  | fuel + 1, i =>
      if is_vaild_assembleA (samples i) then .found (samples i)
      else create_assemblyA_loop samples fuel (i + 1)

/-- Origin re-seeding loop of `get_origin_assembly`, run for `fuel`
iterations (source: `while not is_dissimilar(origin_curve,
self.curve_database):` with a fresh origin and curve each iteration,
modelled as the oracle stream `curves`; `gamma` is left at the source's
default of 1 by the caller).  Again the source has no attempt bound. -/
def get_origin_assembly_loop (curves : ℕ → Curve) (database : List Curve) (gamma : ℚ) :
    ℕ → ℕ → LoopOutcome Curve
  | 0, _ => .running
  | fuel + 1, i =>
      if is_dissimilar (curves i) database gamma then .found (curves i)
      else get_origin_assembly_loop curves database gamma fuel (i + 1)

/-! ## Concrete instances used by the claim checks -/

/-- Test connection with one free parameter `0` and the single residual
term `(v - 2)^2 + 5`: its objective has a genuine minimum of value 5 at
`v = 2`, so a convergent minimizer reports success there while the
residual stays far from zero. -/
def conEx : Connection :=
  ⟨[0], fun a => [(a.getD 0 0 - 2) * (a.getD 0 0 - 2) + 5]⟩

/-- Zero initial state. -/
def stZero : AState := fun _ => 0

/-- Minimizer oracle converging to the true minimum of `conEx`'s
objective: success with solution vector `[2]`. -/
def minOk : List ℚ → MinimizeResult := fun _ => ⟨true, [2]⟩

/-- Minimizer oracle that fails to converge. -/
def minFail : List ℚ → MinimizeResult := fun _ => ⟨false, []⟩

/-- Step-indexed minimizer oracle for tracing that fails at every step. -/
def minsFail : ℕ → List ℚ → MinimizeResult := fun _ _ => ⟨false, []⟩

/-- Trace model over `conEx` whose marked point reads parameter `0`. -/
def traceEx : TraceModel := ⟨[conEx], fun st => (st 0, 0, 0)⟩

/-- Initial state with every parameter at 3. -/
def stThree : AState := fun _ => 3

/-- Connection whose single residual term is `v - 1`. -/
def conCancelA : Connection := ⟨[0], fun a => [a.getD 0 0 - 1]⟩

/-- Connection whose single residual term is `1 - v`, the negation of
`conCancelA`'s term: together they cancel in a raw sum at every `v`. -/
def conCancelB : Connection := ⟨[0], fun a => [1 - a.getD 0 0]⟩

/-- Infeasible configuration: the prototype with link1 shortened to 3,
which is less than its stick1-to-stick2 joint offset 4 (the spec's own
rejected example), so the validator's first guard fires. -/
def invalid_config : AConfig :=
  { prototype_config with stick1_init_parameters := ⟨3⟩ }

/-! ## Helper lemmas -/

/-- Summing a fold that concatenates residual lists equals the sum of
the per-connection sums. -/
lemma foldl_append_sum {α : Type} (f : α → List ℚ) (l : List α) :
    ∀ init : List ℚ,
      (l.foldl (fun acc c => acc ++ f c) init).sum
        = init.sum + (l.map fun c => (f c).sum).sum := by
  induction l with
  | nil => intro init; simp
  | cons c rest ih =>
      intro init
      rw [List.foldl_cons, ih (init ++ f c)]
      simp [List.sum_append]
      ring

/-- Dictionary-style insertion preserves distinctness. -/
lemma insertParam_nodup {l : List Param} (p : Param) (h : l.Nodup) :
    (insertParam l p).Nodup := by
  rw [insertParam]
  by_cases hp : p ∈ l
  · simpa [hp]
  · simp [hp, List.nodup_append, h]

/-- Folding insertions of a parameter list preserves distinctness. -/
lemma foldl_insertParam_nodup (ps : List Param) :
    ∀ acc : List Param, acc.Nodup → (ps.foldl insertParam acc).Nodup := by
  induction ps with
  | nil => intro acc h; simpa
  | cons p rest ih => intro acc h; exact ih _ (insertParam_nodup p h)

/-- The global parameter index never lists a parameter twice. -/
lemma free_params_nodup_aux (cons : List Connection) :
    ∀ acc : List Param, acc.Nodup →
      (cons.foldl (fun a c => c.params.foldl insertParam a) acc).Nodup := by
  induction cons with
  | nil => intro acc h; simpa
  | cons c rest ih => intro acc h; exact ih _ (foldl_insertParam_nodup c.params acc h)

/-- Round-half-to-even never goes below an integer bound below its
argument. -/
lemma le_roundHalfEven {k : ℤ} {q : ℚ} (h : (k : ℚ) ≤ q) : k ≤ roundHalfEven q := by
  have hk : k ≤ ⌊q⌋ := Int.le_floor.mpr h
  simp only [roundHalfEven]
  split_ifs <;> omega

/-- Rounding to hundredths cannot drop below a bound that is itself an
integer number of hundredths. -/
lemma le_round2 {m y : ℚ} (k : ℤ) (hk : (k : ℚ) = 100 * m) (h : m ≤ y) :
    m ≤ round2 y := by
  rw [round2, le_div_iff₀ (by norm_num : (0:ℚ) < 100)]
  have h1 : (k : ℚ) ≤ 100 * y := by rw [hk]; linarith
  have h2 : (k : ℚ) ≤ (roundHalfEven (100 * y) : ℚ) := by
    exact_mod_cast le_roundHalfEven h1
  linarith

/-- With a score constantly `3/2` and a threshold at most `3/2`, the
dissimilarity gate accepts against every database. -/
lemma is_dissimilar_of_le {curve : Curve} {gamma : ℚ} (h : gamma ≤ 3 / 2) :
    ∀ db : List Curve, is_dissimilar curve db gamma = true := by
  intro db
  induction db with
  | nil => rfl
  | cons c rest ih =>
      have hn : ¬ ofir_score curve c < gamma := by rw [ofir_score]; exact not_lt.mpr h
      rw [is_dissimilar, if_neg hn]
      exact ih

/-- With a score constantly `3/2` and a threshold above `3/2`, the
dissimilarity gate rejects against every non-empty database. -/
lemma is_dissimilar_of_lt {curve c : Curve} {rest : List Curve} {gamma : ℚ}
    (h : 3 / 2 < gamma) : is_dissimilar curve (c :: rest) gamma = false := by
  have hy : ofir_score curve c < gamma := by rw [ofir_score]; exact h
  rw [is_dissimilar, if_pos hy]

/-- Distance of the prototype's gear anchors evaluates to 6. -/
lemma prototype_gears_distance :
    points_distance prototype_config.gear1_fixed_position
      prototype_config.gear2_fixed_position = 6 := by
  have h : Nat.sqrt 360000 = 600 := by norm_num
  rw [points_distance, prototype_config]
  norm_num
  rw [sqrtRound2]
  simp only [show ((36:ℚ).num.toNat) = 36 from rfl, show (36:ℚ).den = 1 from rfl]
  norm_num [h]

/-- The shortened-link configuration is rejected by the validator. -/
lemma invalid_config_rejected : is_vaild_assembleA invalid_config = false := by
  rw [is_vaild_assembleA]
  norm_num [invalid_config, prototype_config]

/-- If every sampled configuration is invalid, the origin re-sampling
loop is still running after any number of iterations. -/
lemma create_loop_reject {samples : ℕ → AConfig}
    (h : ∀ i, is_vaild_assembleA (samples i) = false) :
    ∀ fuel i, create_assemblyA_loop samples fuel i = .running := by
  intro fuel
  induction fuel with
  | zero => intro i; rfl
  | succ n ih =>
      intro i
      rw [create_assemblyA_loop, h i]
      simpa using ih (i + 1)

/-! ## Claim C1 -/

/-- C1, counterexample: a mechanism whose construction (the solve run by
the constructor) succeeds, yet the scalar objective at the committed
state is far beyond the configured tolerance — `conEx`'s objective has
minimum value 5, the minimizer converges there and reports success, the
constructor commits the state, and `|5|` exceeds `1/10000`. -/
theorem C1_counterexample :
    (assembly_init [conEx] minOk stZero).isSome = true
    ∧ ¬ |assembly_const [conEx]
          (get_cur_state_array [conEx]
            ((assembly_init [conEx] minOk stZero).getD stZero))| ≤ default_tolerance := by
  constructor
  · rfl
  · have h5 : assembly_const [conEx]
        (get_cur_state_array [conEx]
          ((assembly_init [conEx] minOk stZero).getD stZero)) = 5 := by
      show ((2:ℚ) - 2) * ((2:ℚ) - 2) + 5 + 0 = 5
      norm_num
    rw [h5, default_tolerance]
    norm_num

/-- C1, amended: construction success is exactly the minimizer's own
success flag, and the committed state is exactly the minimizer's output
written back through the parameter index; no residual-magnitude check
against the configured tolerance is performed, so the objective at the
committed state is within tolerance only when the minimizer's output
happens to achieve that. -/
theorem C1_success_flag_only (cons : List Connection)
    (minimizer : List ℚ → MinimizeResult) (st : AState) :
    (assembly_init cons minimizer st).isSome
        = (minimizer (get_cur_state_array cons st)).success
    ∧ ∀ st', assembly_init cons minimizer st = some st' →
        st' = update_cur_state_from_array (free_params_in_assembly cons) st
          (minimizer (get_cur_state_array cons st)).x := by
  by_cases h : (minimizer (get_cur_state_array cons st)).success
  · constructor
    · simp [assembly_init, update_state, h]
    · intro st' hst
      simp [assembly_init, update_state, h] at hst
      exact hst.symm
  · constructor
    · simp [assembly_init, update_state, h]
    · intro st' hst
      simp [assembly_init, update_state, h] at hst

/-- C1, witness for the amended theorem, at the concrete successful
construction of `conEx` with the `minOk` oracle. -/
theorem C1_witness :
    update_cur_state_from_array (free_params_in_assembly [conEx]) stZero [2]
      = update_cur_state_from_array (free_params_in_assembly [conEx]) stZero
          (minOk (get_cur_state_array [conEx] stZero)).x :=
  (C1_success_flag_only [conEx] minOk stZero).2 _ rfl

/-! ## Claim C2 -/

/-- C2: the builder creates seven (not nine) connections; its fourth
connection is a fixed joint constraining GEAR1 (not gear2) to the second
configured anchor position and orientation; and its seventh, the
link1-link2 pin joint, uses the stick1-to-stick2 attachment point for
BOTH sides, although the configuration carries a distinct
stick2-to-stick1 attachment point.  Evaluated on the prototype
configuration. -/
theorem C2_builder_wiring :
    (parse_config_connections prototype_config).length = 7
    ∧ (parse_config_connections prototype_config)[3]?
        = some (.fixedC .gear1 prototype_config.gear2_fixed_position
            prototype_config.gear2_fixed_orientation)
    ∧ (parse_config_connections prototype_config)[6]?
        = some (.pinC .stick1 .stick2 prototype_config.stick1_stick2_joint_location
            prototype_config.stick1_stick2_joint_location)
    ∧ prototype_config.stick1_stick2_joint_location
        ≠ prototype_config.stick2_stick1_joint_location := by
  refine ⟨rfl, rfl, rfl, ?_⟩
  rw [prototype_config]
  simp only [ne_eq, Prod.mk.injEq]
  norm_num

/-! ## Claim C3 -/

/-- C3: the curve tracer ignores the per-step solve result — for every
mechanism, every step-indexed minimizer oracle and every step count `n`
the trace has exactly `n` recorded positions, and concretely, with an
oracle that fails at every step, tracing `conEx` for 3 steps still
returns three copies of the stale marked point instead of aborting. -/
theorem C3_trace_ignores_failed_solves :
    (∀ (M : TraceModel) (mins : ℕ → List ℚ → MinimizeResult) (n i : ℕ) (st : AState),
        (get_assembly_curve M mins n i st).length = n)
    ∧ (∀ (i : ℕ) (x : List ℚ), (minsFail i x).success = false)
    ∧ get_assembly_curve traceEx minsFail 3 0 stThree
        = [(3, 0, 0), (3, 0, 0), (3, 0, 0)] := by
  refine ⟨?_, fun _ _ => rfl, rfl⟩
  intro M mins n
  induction n with
  | zero => intro i st; rfl
  | succ k ih =>
      intro i st
      rw [get_assembly_curve]
      simp [ih]

/-! ## Claim C4 -/

/-- C4: a solve is atomic on the state — on failure every slot keeps its
previous value, on success every indexed slot is overwritten with the
minimizer's result at that slot's position. -/
theorem C4_update_state_atomic (cons : List Connection)
    (minimizer : List ℚ → MinimizeResult) (st : AState) :
    ((update_state cons minimizer st).1 = false →
        ∀ p, (update_state cons minimizer st).2 p = st p)
    ∧ ((update_state cons minimizer st).1 = true →
        ∀ p ∈ free_params_in_assembly cons,
          (update_state cons minimizer st).2 p
            = (minimizer (get_cur_state_array cons st)).x.getD (param_slot cons p) 0) := by
  by_cases h : (minimizer (get_cur_state_array cons st)).success
  · constructor
    · intro hfail
      exfalso
      simp [update_state, h] at hfail
    · intro _ p hp
      simp [update_state, h, update_cur_state_from_array, hp, param_slot]
  · constructor
    · intro _ p
      simp [update_state, h]
    · intro hok
      exfalso
      simp [update_state, h] at hok

/-- C4, witness: at `conEx`, a failing solve leaves slot 0 at its old
value and a successful solve overwrites slot 0 with the minimizer's
entry for it. -/
theorem C4_witness :
    (update_state [conEx] minFail stZero).2 0 = stZero 0
    ∧ (update_state [conEx] minOk stZero).2 0
        = (minOk (get_cur_state_array [conEx] stZero)).x.getD (param_slot [conEx] 0) 0 :=
  ⟨(C4_update_state_atomic [conEx] minFail stZero).1 rfl 0,
   (C4_update_state_atomic [conEx] minOk stZero).2 rfl 0 (by simp [free_params_in_assembly, insertParam, conEx])⟩

/-! ## Claim C5 -/

/-- C5: the index is deduplicated, the scalar objective is the raw
(unsquared, un-absolute-valued) sum over all connections of all their
residual terms at the indexed entries of the vector, and consequently
two opposite-sign residual terms can cancel: at `v = 5` the residuals of
`conCancelA` and `conCancelB` are `4` and `-4` and the objective is `0`. -/
theorem C5_raw_sum_objective :
    (∀ cons : List Connection, (free_params_in_assembly cons).Nodup)
    ∧ (∀ (cons : List Connection) (x : List ℚ),
        assembly_const cons x = assembly_const_specSum cons x)
    ∧ assembly_const [conCancelA, conCancelB] [5] = 0
    ∧ conCancelA.residual (connectionArgs [conCancelA, conCancelB] conCancelA [5]) = [4] := by
  refine ⟨?_, ?_, ?_, ?_⟩
  · intro cons
    exact free_params_nodup_aux cons [] (by simp)
  · intro cons x
    rw [assembly_const, assembly_const_specSum]
    have h := foldl_append_sum
      (fun c : Connection => c.residual (connectionArgs cons c x)) cons []
    simpa using h
  · show ((5:ℚ) - 1) + ((1 - 5) + 0) = 0
    norm_num
  · show [((5:ℚ) - 1)] = [4]
    norm_num

/-! ## Claim C6 -/

/-- C6, counterexample: the origin re-sampling loop of
`create_assemblyA` has no attempt bound and no exhaustion error — when
every sampled configuration is invalid (here the constantly
`invalid_config` stream) the loop never exits, at any iteration count,
so it cannot be reporting `SearchExhausted` at a configured cap. -/
theorem C6_counterexample :
    ¬ ∃ fuel i, (create_assemblyA_loop (fun _ => invalid_config) fuel i).isFound = true := by
  rintro ⟨fuel, i, h⟩
  rw [create_loop_reject (fun _ => invalid_config_rejected) fuel i] at h
  simp [LoopOutcome.isFound] at h

/-- C6, amended: neither explorer retry loop carries an attempt bound or
any exhaustion error.  The `create_assemblyA` loop simply runs on —
with an always-invalid sample stream it is still running after every
finite number of iterations — and the `get_origin_assembly` loop's
guard `is_dissimilar (curve, database)` is always true at the source's
default threshold 1 under the constant score `3/2`, so that loop always
exits at its first check, again with no bound involved. -/
theorem C6_loops_unbounded :
    (∀ fuel i, create_assemblyA_loop (fun _ => invalid_config) fuel i = .running)
    ∧ (∀ (curve : Curve) (db : List Curve), is_dissimilar curve db 1 = true)
    ∧ (∀ (curves : ℕ → Curve) (db : List Curve) (fuel i : ℕ),
        get_origin_assembly_loop curves db 1 (fuel + 1) i = .found (curves i)) := by
  refine ⟨create_loop_reject (fun _ => invalid_config_rejected), ?_, ?_⟩
  · intro curve db
    exact is_dissimilar_of_le (by norm_num) db
  · intro curves db fuel i
    rw [get_origin_assembly_loop, if_pos]
    rw [is_dissimilar_of_le (by norm_num) db]

/-! ## Claim C7 -/

/-- C7: the validator accepts the reference prototype configuration —
`is_vaild_assembleA` returns true on it, the gear anchors are at
distance 6, every joint offset lies within its gear or link, the
combined link reach 10 exceeds the blocked span 9, and the long-link
check 8 is at least link2's length 6. -/
theorem C7_validator_accepts_prototype :
    is_vaild_assembleA prototype_config = true
    ∧ points_distance prototype_config.gear1_fixed_position
        prototype_config.gear2_fixed_position = 6
    ∧ prototype_config.stick1_stick2_joint_location.1
        ≤ prototype_config.stick1_init_parameters.length
    ∧ prototype_config.stick2_stick1_joint_location.1
        ≤ prototype_config.stick2_init_parameters.length
    ∧ prototype_config.gear1_stick1_joint_location.1 ^ 2
        + prototype_config.gear1_stick1_joint_location.2.1 ^ 2
        ≤ prototype_config.gear1_init_parameters.radius ^ 2
    ∧ prototype_config.gear2_stick2_joint_location.1 ^ 2
        + prototype_config.gear2_stick2_joint_location.2.1 ^ 2
        ≤ prototype_config.gear2_init_parameters.radius ^ 2
    ∧ points_distance prototype_config.gear1_fixed_position
          prototype_config.gear2_fixed_position
        + prototype_config.gear1_init_parameters.radius
        + prototype_config.gear2_init_parameters.radius
      < prototype_config.stick2_init_parameters.length
        + prototype_config.stick1_stick2_joint_location.1
    ∧ prototype_config.stick2_init_parameters.length
      ≤ points_distance prototype_config.gear1_fixed_position
          prototype_config.gear2_fixed_position
        - prototype_config.gear1_init_parameters.radius
        + prototype_config.stick1_stick2_joint_location.1 := by
  have hd := prototype_gears_distance
  refine ⟨?_, hd, ?_, ?_, ?_, ?_, ?_, ?_⟩
  · rw [is_vaild_assembleA, hd]
    norm_num [prototype_config]
  all_goals rw [prototype_config] at hd ⊢ <;> norm_num [hd]

/-! ## Claim C8 -/

/-- C8: the implemented score is the constant `3/2`; against every
non-empty database the gate returns false exactly when that constant is
below the threshold and true exactly when the threshold is at most the
constant. -/
theorem C8_constant_scorer_gate (curve : Curve) (db : List Curve) (gamma : ℚ)
    (hdb : db ≠ []) :
    (∀ c1 c2 : Curve, ofir_score c1 c2 = 3 / 2)
    ∧ (is_dissimilar curve db gamma = false ↔ 3 / 2 < gamma)
    ∧ (is_dissimilar curve db gamma = true ↔ gamma ≤ 3 / 2) := by
  obtain ⟨c, rest, rfl⟩ := List.exists_cons_of_ne_nil hdb
  refine ⟨fun _ _ => rfl, ⟨?_, ?_⟩, ⟨?_, ?_⟩⟩
  · intro hfalse
    by_contra hnot
    push_neg at hnot
    rw [is_dissimilar_of_le hnot] at hfalse
    simp at hfalse
  · intro hlt
    exact is_dissimilar_of_lt hlt
  · intro htrue
    by_contra hnot
    push_neg at hnot
    rw [is_dissimilar_of_lt hnot] at htrue
    simp at htrue
  · intro hle
    exact is_dissimilar_of_le hle _

/-- C8, witness: a one-curve database with threshold 2 rejects (the
constant `3/2` is below 2), and with threshold 1 accepts. -/
theorem C8_witness :
    is_dissimilar [] [[]] 2 = false ∧ is_dissimilar [] [[]] 1 = true :=
  ⟨(C8_constant_scorer_gate [] [[]] 2 (by simp)).2.1.mpr (by norm_num),
   (C8_constant_scorer_gate [] [[]] 1 (by simp)).2.2.mpr (by norm_num)⟩

/-! ## Claim C9 -/

/-- C9, counterexample: with the configured floor `min_radius = 1/250`
(0.004) and a legal draw of 0, the sampler rounds the clamped value
down to 0, strictly below the floor. -/
theorem C9_counterexample :
    sample_radius_from_current 0 0 default_diff_val (1 / 250) = 0
    ∧ (0 : ℚ) < 1 / 250 := by
  constructor
  · have hf : ⌊(100 * ((1:ℚ)/250 ⊔ (0 + 0)) : ℚ)⌋ = 0 := by
      rw [Int.floor_eq_iff]
      norm_num
    rw [sample_radius_from_current, if_pos (by norm_num : (0:ℚ) < 1 / 2),
      round2, roundHalfEven]
    rw [hf]
    norm_num
  · norm_num

/-- C9, amended: the sampled radius and length never drop below the
configured floor provided the floor is an integer number of hundredths
(in particular the default floor `1/10`); in general the result is the
two-decimal rounding of a value clamped at the floor, so a floor that is
not a multiple of `1/100` can be undershot by the rounding, as the
counterexample shows. -/
theorem C9_floor_respected_for_centesimal_floors
    (radius length u v diff_val m : ℚ) (hm : ∃ k : ℤ, (k : ℚ) = 100 * m) :
    m ≤ sample_radius_from_current radius u diff_val m
    ∧ m ≤ sample_length_from_current length v diff_val m := by
  obtain ⟨k, hk⟩ := hm
  constructor
  · rw [sample_radius_from_current]
    split_ifs <;> exact le_round2 k hk (le_max_left _ _)
  · rw [sample_length_from_current]
    split_ifs <;> exact le_round2 k hk (le_max_left _ _)

/-- C9, witness: at the default floor `1/10` (an integer number of
hundredths) the sampled radius and length stay at or above the floor. -/
theorem C9_witness :
    (1:ℚ) / 10 ≤ sample_radius_from_current 0 0 2 (1 / 10)
    ∧ (1:ℚ) / 10 ≤ sample_length_from_current 0 0 2 (1 / 10) :=
  C9_floor_respected_for_centesimal_floors 0 0 0 0 2 (1 / 10) ⟨10, by norm_num⟩

/-! ## Claim C10 -/

/-- C10: against an empty database the dissimilarity gate accepts every
candidate curve at every threshold, so the first traced curve is always
admitted. -/
theorem C10_empty_database_accepts :
    ∀ (curve : Curve) (gamma : ℚ), is_dissimilar curve [] gamma = true :=
  fun _ _ => rfl

end MechAssembly
